import Mathlib

/-!
Shallow embedding of `src/packages/monosize/src/reporters/markdownReporter.mts`.

The module renders a bundle-size comparison report as Markdown.  Pure string
construction is translated directly; the two side effects (console output and
the optional file write) are made explicit in a `RunResult` record, and the
external environment (the project-root locator result and the outcome of the
asynchronous file write) is an explicit `Env` argument.
-/

/-- Per-metric diff record.  Modelled from the spec: `DiffByMetric` (from the
collaborator module `calculateDiffByMetric.mts`, not part of the reviewed
sources) holds a numeric delta and a preformatted percentage string. -/
structure DiffByMetric where
  delta : Int
  percent : String
deriving DecidableEq

/-- Per-entry diff: one record per metric plus the "empty/new" flag. -/
structure EntryDiff where
  empty : Bool
  minified : DiffByMetric
  gzip : DiffByMetric
deriving DecidableEq

/-- One measured bundle export with its current sizes and diff. -/
structure Entry where
  packageName : String
  name : String
  path : String
  minifiedSize : Int
  gzippedSize : Int
  diff : EntryDiff
deriving DecidableEq

/-- The delta display mode: `keyof DiffByMetric`, i.e. `delta` or `percent`. -/
inductive DeltaFormat where
  | delta
  | percent
deriving DecidableEq

/-- Reporter options consumed by `markdownReporter`. -/
structure Options where
  commitSHA : String
  repository : String
  showUnchanged : Bool
  deltaFormat : DeltaFormat
  outputFile : Option String
deriving DecidableEq

/-- External environment of one invocation: the directory the module resides
in, the result of the third-party project-root locator `findPackageRoot`, and
whether the asynchronous `fs.writeFile` call succeeds. -/
structure Env where
  dirname : String
  packageRoot : Option String
  writeSucceeds : Bool
deriving DecidableEq

/-- Observable effects of one invocation: the `console.log` outputs in order,
the `console.error` outputs, and the successful file write, if any, as a
(path, content) pair. -/
structure RunResult where
  stdout : List String
  errlog : List String
  written : Option (String × String)
deriving DecidableEq

/-- Modelled from the spec: `formatBytes` (collaborator from
`utils/helpers.mjs`, not part of the reviewed sources) is "a byte-count
formatter producing human-readable size strings". -/
def formatBytes (value : Int) : String :=
  toString value ++ " B"

/-- Modelled from the spec: `getChangedEntriesInReport` (collaborator from
`utils/getChangedEntriesInReport.mjs`, not part of the reviewed sources) is
"a classifier that splits report entries into changed/unchanged lists";
per the glossary an entry is changed when its current measurement differs
from baseline, i.e. a nonzero delta on some metric or a new (empty) diff. -/
def entryIsChanged (e : Entry) : Bool :=
  e.diff.empty || e.diff.minified.delta != 0 || e.diff.gzip.delta != 0

/-- Modelled from the spec: the classifier's result, a pair of the changed
and the unchanged entries. -/
def getChangedEntriesInReport (report : List Entry) : List Entry × List Entry :=
  (report.filter entryIsChanged, report.filter (fun e => !(entryIsChanged e)))

/-- Result shape of the delta-formatting factory: a plain string or a
`\x7b deltaOutput, dirSymbol \x7d` pair. -/
inductive FormatDeltaOutput where
  | str : String → FormatDeltaOutput
  | pair : (deltaOutput : String) → (dirSymbol : String) → FormatDeltaOutput

/-- Modelled from the spec: `formatDeltaFactory` (collaborator from
`reporters/shared.mjs`, not part of the reviewed sources) renders the field
selected by the delta-format option and attaches the direction symbol
produced by the supplied callback on the numeric delta. -/
def formatDeltaFactory (diff : DiffByMetric) (deltaFormat : DeltaFormat)
    (directionSymbol : Int → String) : FormatDeltaOutput :=
  FormatDeltaOutput.pair
    (match deltaFormat with
      | DeltaFormat.delta => toString diff.delta
      | DeltaFormat.percent => diff.percent)
    (directionSymbol diff.delta)

/-- `img` helper inside `getDirectionSymbol`. -/
def img (iconName : String) : String :=
  "<img aria-hidden=\"true\" src=\"https://microsoft.github.io/monosize/images/" ++ iconName ++ "\" />"

/-- `getDirectionSymbol`: decrease icon for a negative value, increase icon
for a positive value, empty string for zero. -/
def getDirectionSymbol (value : Int) : String :=
  if value < 0 then img "decrease.png"
  else if value > 0 then img "increase.png"
  else ""

/-- `formatDelta`: calls the factory and handles both result shapes. -/
def formatDelta (diff : DiffByMetric) (deltaFormat : DeltaFormat) : String :=
  match formatDeltaFactory diff deltaFormat getDirectionSymbol with
  | FormatDeltaOutput.str s => s
  | FormatDeltaOutput.pair deltaOutput dirSymbol =>
      "`" ++ deltaOutput ++ "` " ++ dirSymbol

/-- The footer template literal of `markdownReporter`. -/
def footerString (repository commitSHA : String) : String :=
  "<sub>🤖 This report was generated against <a href=\x27" ++
    (repository ++ "/commit/" ++ commitSHA ++ "\x27>" ++ commitSHA ++ "</a></sub>")

/-- `assertPackageRoot`: throws a descriptive error when the locator finds
no package root. -/
def assertPackageRoot (env : Env) : Except String Unit :=
  match env.packageRoot with
  | some _ => Except.ok ()
  | none =>
      Except.error
        ("Failed to find a package root (directory that contains \"package.json\" file)" ++
          "\n" ++ "Lookup start in: " ++ env.dirname)

/-- The `title` template of a table row. -/
def entryTitle (e : Entry) : String :=
  "<samp>" ++ e.packageName ++ "</samp> <br /> <abbr title=\x27" ++ e.path ++ "\x27>" ++
    e.name ++ "</abbr>"

/-- The `before` cell of a changed-entry row. -/
def beforeCell (e : Entry) : String :=
  if e.diff.empty then
    "`" ++ formatBytes 0 ++ "`" ++ "<br />" ++ "`" ++ formatBytes 0 ++ "`"
  else
    "`" ++ formatBytes (e.minifiedSize - e.diff.minified.delta) ++ "`" ++ "<br />" ++
      "`" ++ formatBytes (e.gzippedSize - e.diff.gzip.delta) ++ "`"

/-- The `after` cell of a changed-entry row. -/
def afterCell (e : Entry) : String :=
  "`" ++ formatBytes e.minifiedSize ++ "`" ++ "<br />" ++ "`" ++ formatBytes e.gzippedSize ++ "`"

/-- The `difference` cell of a changed-entry row. -/
def differenceCell (deltaFormat : DeltaFormat) (e : Entry) : String :=
  if e.diff.empty then "🆕 New entry"
  else formatDelta e.diff.minified deltaFormat ++ "<br />" ++ formatDelta e.diff.gzip deltaFormat

/-- One row of the changed-entries table. -/
def changedRow (deltaFormat : DeltaFormat) (e : Entry) : String :=
  "| " ++
    (entryTitle e ++ " | " ++ beforeCell e ++ " | " ++ afterCell e ++ " | " ++
      differenceCell deltaFormat e ++ "|")

/-- One row of the unchanged-entries table: current sizes only. -/
def unchangedRow (e : Entry) : String :=
  "| " ++
    (entryTitle e ++ " | " ++
      ("`" ++ formatBytes e.minifiedSize ++ "`" ++ "<br />" ++ "`" ++
        formatBytes e.gzippedSize ++ "`") ++ " |")

/-- The first two lines pushed into `reportOutput`. -/
def headerLines : List String :=
  ["## 📊 Bundle size report", ""]

/-- Header of the changed-entries table. -/
def tableHeadLines : List String :=
  ["| Package & Exports | Baseline (minified/GZIP) | PR    | Change     |",
   "| :---------------- | -----------------------: | ----: | ---------: |"]

/-- Header of the unchanged-entries table. -/
def unchangedTableHeadLines : List String :=
  ["| Package & Exports | Size (minified/GZIP) |",
   "| ----------------- | -------------------: |"]

/-- The collapsible unchanged section, present only when `showUnchanged` is
set and at least one unchanged entry exists. -/
def unchangedSectionLines (showUnchanged : Bool) (unchangedEntries : List Entry) : List String :=
  if showUnchanged && decide (0 < unchangedEntries.length) then
    ["<details>", "<summary>Unchanged fixtures</summary>", ""] ++
      unchangedTableHeadLines ++ unchangedEntries.map unchangedRow ++ ["</details>"]
  else []

/-- All lines of `reportOutput` on the path with at least one changed entry. -/
def fullLines (deltaFormat : DeltaFormat) (showUnchanged : Bool)
    (changedEntries unchangedEntries : List Entry) (footer : String) : List String :=
  headerLines ++ tableHeadLines ++ changedEntries.map (changedRow deltaFormat) ++ [""] ++
    unchangedSectionLines showUnchanged unchangedEntries ++ [footer]

/-- `reportOutput.join('\n')`. -/
def joinLines (lines : List String) : String :=
  String.intercalate "\n" lines

/-- `markdownReporter`: the reporter.  `console.log("writing to file", outputFile)`
is modelled as the single stdout line `"writing to file " ++ path`; the error
object logged by `console.error` is elided, keeping the fixed message text. -/
def markdownReporter (env : Env) (report : List Entry) (options : Options) :
    Except String RunResult :=
  match assertPackageRoot env with
  | Except.error e => Except.error e
  | Except.ok _ =>
      if (getChangedEntriesInReport report).1.length = 0 then
        Except.ok
          { stdout := [joinLines (headerLines ++ ["✅ No changes found"])],
            errlog := [], written := none }
      else
        let content := joinLines
          (fullLines options.deltaFormat options.showUnchanged
            (getChangedEntriesInReport report).1 (getChangedEntriesInReport report).2
            (footerString options.repository options.commitSHA))
        match options.outputFile with
        | none => Except.ok { stdout := [content], errlog := [], written := none }
        | some path =>
            if env.writeSucceeds then
              Except.ok
                { stdout := [content, "writing to file " ++ path,
                             "Content written to file successfully!"],
                  errlog := [], written := some (path, content) }
            else
              Except.ok
                { stdout := [content, "writing to file " ++ path],
                  errlog := ["Error writing to file:"], written := none }

/-- Needle/haystack matching at the head, on character lists. -/
def leadsWith : List Char → List Char → Bool
  | [], _ => true
  | _ :: _, [] => false
  | a :: as, b :: bs => a == b && leadsWith as bs

/-- Substring occurrence on character lists. -/
def occursIn (needle : List Char) : List Char → Bool
  | [] => leadsWith needle []
  | c :: rest => leadsWith needle (c :: rest) || occursIn needle rest

/-- Substring occurrence on strings. -/
def strOccursIn (needle hay : String) : Bool :=
  occursIn needle.data hay.data

/-- Sample environment with a located package root and a succeeding write. -/
def sampleEnv : Env :=
  { dirname := "/repo/packages/monosize/src/reporters",
    packageRoot := some "/repo/packages/monosize", writeSucceeds := true }

/-- Sample changed entry, taken from the spec's worked example: current
minified 1500 with delta −500, current gzip 600 with delta −200. -/
def changedEntrySample : Entry :=
  { packageName := "pkg-a", name := "Button", path := "dist/button.js",
    minifiedSize := 1500, gzippedSize := 600,
    diff := { empty := false,
              minified := { delta := -500, percent := "-25%" },
              gzip := { delta := -200, percent := "-25%" } } }

/-- Sample new entry: empty diff. -/
def newEntrySample : Entry :=
  { packageName := "pkg-b", name := "Card", path := "dist/card.js",
    minifiedSize := 900, gzippedSize := 400,
    diff := { empty := true,
              minified := { delta := 7, percent := "0%" },
              gzip := { delta := 9, percent := "0%" } } }

/-- Sample unchanged entry: zero deltas, not new. -/
def unchangedEntrySample : Entry :=
  { packageName := "pkg-c", name := "Text", path := "dist/text.js",
    minifiedSize := 100, gzippedSize := 50,
    diff := { empty := false,
              minified := { delta := 0, percent := "0%" },
              gzip := { delta := 0, percent := "0%" } } }

/-- Sample options without an output file. -/
def sampleOptions : Options :=
  { commitSHA := "deadbeef", repository := "https://github.com/org/repo",
    showUnchanged := true, deltaFormat := DeltaFormat.delta, outputFile := none }

/-- The full text assembled on the path with at least one changed entry. -/
def changedContent (report : List Entry) (options : Options) : String :=
  joinLines (fullLines options.deltaFormat options.showUnchanged
    (getChangedEntriesInReport report).1 (getChangedEntriesInReport report).2
    (footerString options.repository options.commitSHA))

/-- Sample options with an output file configured. -/
def outOptions : Options := { sampleOptions with outputFile := some "report.md" }

/-- Sample environment whose file write fails. -/
def failEnv : Env := { sampleEnv with writeSucceeds := false }

theorem ne_append_of_get (L Q Y : String) (i : Nat) (hQ : i < Q.data.length)
    (h : L.data[i]? ≠ Q.data[i]?) : L ≠ Q ++ Y := by
  intro hEq
  apply h
  have hQ' : i < Q.length := hQ
  rw [hEq, String.data_append, List.getElem?_append]
  simp [hQ']

theorem append_ne_append (P X Q Y : String) (i : Nat) (hP : i < P.data.length)
    (hQ : i < Q.data.length) (h : P.data[i]? ≠ Q.data[i]?) : P ++ X ≠ Q ++ Y := by
  intro hEq
  apply h
  have hP' : i < P.length := hP
  have hQ' : i < Q.length := hQ
  have hd : P.data ++ X.data = Q.data ++ Y.data := by
    rw [← String.data_append, ← String.data_append, hEq]
  calc P.data[i]? = (P.data ++ X.data)[i]? := by rw [List.getElem?_append]; simp [hP']
    _ = (Q.data ++ Y.data)[i]? := by rw [hd]
    _ = Q.data[i]? := by rw [List.getElem?_append]; simp [hQ']

/-- C2: with zero changed entries, for every environment with a package root
and all options, the output is exactly the report header followed by the
"no changes" line: no table, no unchanged section, no file write, whatever
`showUnchanged` is and however many unchanged entries exist. -/
theorem noChanges_output_exact (env : Env) (report : List Entry) (options : Options)
    (p : String) (hroot : env.packageRoot = some p)
    (hch : (getChangedEntriesInReport report).1 = []) :
    markdownReporter env report options =
      Except.ok { stdout := ["## 📊 Bundle size report\n\n✅ No changes found"],
                  errlog := [], written := none } := by
  simp only [markdownReporter, assertPackageRoot, hroot, hch]
  rfl

theorem noChanges_output_exact_witness :
    markdownReporter sampleEnv [unchangedEntrySample] sampleOptions =
      Except.ok { stdout := ["## 📊 Bundle size report\n\n✅ No changes found"],
                  errlog := [], written := none } :=
  noChanges_output_exact sampleEnv [unchangedEntrySample] sampleOptions
    "/repo/packages/monosize" rfl (by decide)

/-- C8: when the project-root locator finds no package root, the reporter
raises the descriptive error and produces no report output at all, for every
report and options. -/
theorem missing_root_fatal (env : Env) (report : List Entry) (options : Options)
    (hroot : env.packageRoot = none) :
    markdownReporter env report options =
      Except.error
        ("Failed to find a package root (directory that contains \"package.json\" file)" ++
          "\n" ++ "Lookup start in: " ++ env.dirname) := by
  simp [markdownReporter, assertPackageRoot, hroot]

theorem missing_root_fatal_witness :
    markdownReporter { dirname := "/tmp/none", packageRoot := none, writeSucceeds := true }
        [changedEntrySample] sampleOptions =
      Except.error
        ("Failed to find a package root (directory that contains \"package.json\" file)" ++
          "\n" ++ "Lookup start in: " ++ "/tmp/none") :=
  missing_root_fatal { dirname := "/tmp/none", packageRoot := none, writeSucceeds := true }
    [changedEntrySample] sampleOptions rfl

/-- C3: for a changed entry whose diff is not empty, the row's "Before" cell
is `formatBytes` applied to current size minus stored delta, per metric, and
the "After" cell is the same `formatBytes` applied to the current sizes. -/
theorem before_cells_subtract_delta (e : Entry) (fmt : DeltaFormat)
    (h : e.diff.empty = false) :
    changedRow fmt e =
      "| " ++
        (entryTitle e ++ " | " ++
          ("`" ++ formatBytes (e.minifiedSize - e.diff.minified.delta) ++ "`" ++ "<br />" ++
            "`" ++ formatBytes (e.gzippedSize - e.diff.gzip.delta) ++ "`") ++ " | " ++
          ("`" ++ formatBytes e.minifiedSize ++ "`" ++ "<br />" ++ "`" ++
            formatBytes e.gzippedSize ++ "`") ++ " | " ++
          differenceCell fmt e ++ "|") := by
  simp [changedRow, beforeCell, afterCell, h]

theorem before_cells_subtract_delta_witness :
    changedRow DeltaFormat.delta changedEntrySample =
      "| " ++
        (entryTitle changedEntrySample ++ " | " ++
          ("`" ++ formatBytes (1500 - (-500)) ++ "`" ++ "<br />" ++
            "`" ++ formatBytes (600 - (-200)) ++ "`") ++ " | " ++
          ("`" ++ formatBytes 1500 ++ "`" ++ "<br />" ++ "`" ++
            formatBytes 600 ++ "`") ++ " | " ++
          differenceCell DeltaFormat.delta changedEntrySample ++ "|") :=
  before_cells_subtract_delta changedEntrySample DeltaFormat.delta rfl

/-- C4: for a changed entry whose diff is empty (a new entry), both before
cells are the formatted zero-byte value and the change cell is the fixed
"new entry" marker, never a computed delta. -/
theorem new_entry_row (e : Entry) (fmt : DeltaFormat) (h : e.diff.empty = true) :
    changedRow fmt e =
      "| " ++
        (entryTitle e ++ " | " ++
          ("`" ++ formatBytes 0 ++ "`" ++ "<br />" ++ "`" ++ formatBytes 0 ++ "`") ++ " | " ++
          afterCell e ++ " | " ++ "🆕 New entry" ++ "|") := by
  simp [changedRow, beforeCell, differenceCell, h]

theorem new_entry_row_witness :
    changedRow DeltaFormat.delta newEntrySample =
      "| " ++
        (entryTitle newEntrySample ++ " | " ++
          ("`" ++ formatBytes 0 ++ "`" ++ "<br />" ++ "`" ++ formatBytes 0 ++ "`") ++ " | " ++
          afterCell newEntrySample ++ " | " ++ "🆕 New entry" ++ "|") :=
  new_entry_row newEntrySample DeltaFormat.delta rfl

/-- C5: the direction symbol is the decrease icon for a negative value, the
increase icon for a positive value, and empty for zero; `formatDelta` attaches
the symbol of that metric's own delta, and the change cell applies it to the
minified and gzip metrics independently. -/
theorem direction_symbol_selection (v : Int) (d : DiffByMetric) (fmt : DeltaFormat) (e : Entry) :
    (v < 0 → getDirectionSymbol v = img "decrease.png") ∧
    (0 < v → getDirectionSymbol v = img "increase.png") ∧
    (v = 0 → getDirectionSymbol v = "") ∧
    (formatDelta d fmt =
      "`" ++ (match fmt with
        | DeltaFormat.delta => toString d.delta
        | DeltaFormat.percent => d.percent) ++ "` " ++ getDirectionSymbol d.delta) ∧
    (e.diff.empty = false →
      differenceCell fmt e =
        formatDelta e.diff.minified fmt ++ "<br />" ++ formatDelta e.diff.gzip fmt) := by
  refine ⟨?_, ?_, ?_, ?_, ?_⟩
  · intro h
    rw [getDirectionSymbol, if_pos h]
  · intro h
    rw [getDirectionSymbol, if_neg (by omega), if_pos h]
  · intro h
    rw [getDirectionSymbol, if_neg (by omega), if_neg (by omega)]
  · cases fmt <;> simp [formatDelta, formatDeltaFactory]
  · intro h
    simp [differenceCell, h]

theorem direction_symbol_selection_witness :
    getDirectionSymbol (-1) = img "decrease.png" ∧
    getDirectionSymbol 1 = img "increase.png" ∧
    getDirectionSymbol 0 = "" :=
  ⟨(direction_symbol_selection (-1) ⟨0, "0%"⟩ DeltaFormat.delta changedEntrySample).1
      (by decide),
   (direction_symbol_selection 1 ⟨0, "0%"⟩ DeltaFormat.delta changedEntrySample).2.1
      (by decide),
   (direction_symbol_selection 0 ⟨0, "0%"⟩ DeltaFormat.delta changedEntrySample).2.2.1 rfl⟩

/-- C10: for an entry whose diff is empty, the rendered row does not depend
on the stored deltas: changing only `diff.minified.delta` and
`diff.gzip.delta` leaves the row character-for-character identical. -/
theorem empty_row_delta_independent (e : Entry) (d1 d2 : Int) (fmt : DeltaFormat)
    (h : e.diff.empty = true) :
    changedRow fmt
      { e with diff := { e.diff with
          minified := { e.diff.minified with delta := d1 },
          gzip := { e.diff.gzip with delta := d2 } } } =
    changedRow fmt e := by
  simp [changedRow, entryTitle, beforeCell, afterCell, differenceCell, h]

theorem empty_row_delta_independent_witness :
    changedRow DeltaFormat.delta
      { newEntrySample with diff := { newEntrySample.diff with
          minified := { newEntrySample.diff.minified with delta := 123456 },
          gzip := { newEntrySample.diff.gzip with delta := -98765 } } } =
    changedRow DeltaFormat.delta newEntrySample :=
  empty_row_delta_independent newEntrySample 123456 (-98765) DeltaFormat.delta rfl

theorem footer_ne_fixed (L r c : String) (i : Nat)
    (hQ : i < ("<sub>🤖 This report was generated against <a href=\x27" : String).data.length)
    (h : L.data[i]? ≠ ("<sub>🤖 This report was generated against <a href=\x27" : String).data[i]?) :
    footerString r c ≠ L := by
  rw [footerString]
  exact fun hEq => (ne_append_of_get L _ _ i hQ h) hEq.symm

theorem footer_ne_row (r c s : String) : footerString r c ≠ "| " ++ s := by
  rw [footerString]
  exact fun hEq =>
    (append_ne_append "| " s _ _ 0 (by decide) (by decide) (by decide)) hEq.symm

theorem footer_not_mem_section (su : Bool) (u : List Entry) (r c : String) :
    footerString r c ∉ unchangedSectionLines su u := by
  rw [unchangedSectionLines]
  split
  · intro hmem
    simp only [unchangedTableHeadLines, List.append_assoc, List.mem_append, List.mem_cons,
      List.not_mem_nil, List.mem_singleton, List.mem_map, or_false, false_or] at hmem
    rcases hmem with (h | h | h) | (h | h) | ⟨e, _, hrow⟩ | h
    · exact footer_ne_fixed _ r c 1 (by decide) (by decide) h
    · exact footer_ne_fixed _ r c 3 (by decide) (by decide) h
    · exact footer_ne_fixed _ r c 0 (by decide) (by decide) h
    · exact footer_ne_fixed _ r c 0 (by decide) (by decide) h
    · exact footer_ne_fixed _ r c 0 (by decide) (by decide) h
    · rw [unchangedRow] at hrow
      exact footer_ne_row r c _ hrow.symm
    · exact footer_ne_fixed _ r c 1 (by decide) (by decide) h
  · exact List.not_mem_nil _

theorem footer_not_mem (fmt : DeltaFormat) (su : Bool) (changed unchanged : List Entry)
    (r c : String) :
    footerString r c ∉
      (headerLines ++ tableHeadLines ++ changed.map (changedRow fmt) ++ [""] ++
        unchangedSectionLines su unchanged) := by
  intro hmem
  simp only [headerLines, tableHeadLines, List.append_assoc, List.mem_append, List.mem_cons,
    List.not_mem_nil, List.mem_singleton, List.mem_map, or_false, false_or] at hmem
  rcases hmem with (h | h) | (h | h) | ⟨e, _, hrow⟩ | h | h
  · exact footer_ne_fixed _ r c 0 (by decide) (by decide) h
  · exact footer_ne_fixed _ r c 0 (by decide) (by decide) h
  · exact footer_ne_fixed _ r c 0 (by decide) (by decide) h
  · exact footer_ne_fixed _ r c 0 (by decide) (by decide) h
  · rw [changedRow] at hrow
    exact footer_ne_row r c _ hrow.symm
  · exact footer_ne_fixed _ r c 0 (by decide) (by decide) h
  · exact footer_not_mem_section su unchanged r c h

theorem footer_count_one (fmt : DeltaFormat) (su : Bool) (changed unchanged : List Entry)
    (r c : String) :
    (fullLines fmt su changed unchanged (footerString r c)).count (footerString r c) = 1 := by
  rw [fullLines, List.count_append]
  rw [List.count_eq_zero.mpr (footer_not_mem fmt su changed unchanged r c)]
  simp [List.count_cons]

theorem footer_last (fmt : DeltaFormat) (su : Bool) (changed unchanged : List Entry)
    (F : String) :
    (fullLines fmt su changed unchanged F).getLast? = some F := by
  rw [fullLines]
  exact List.getLast?_concat _

theorem reporter_changed_stdout_head (env : Env) (report : List Entry) (options : Options)
    (p : String) (hroot : env.packageRoot = some p)
    (hch : (getChangedEntriesInReport report).1 ≠ []) :
    ∃ res, markdownReporter env report options = Except.ok res ∧
      res.stdout.head? = some (changedContent report options) := by
  have hlen : ¬((getChangedEntriesInReport report).1.length = 0) := by
    simpa [List.length_eq_zero] using hch
  cases hout : options.outputFile with
  | none =>
      exact ⟨{ stdout := [changedContent report options], errlog := [], written := none },
        by simp [markdownReporter, assertPackageRoot, hroot, hlen, hout, changedContent], rfl⟩
  | some path =>
      cases hw : env.writeSucceeds
      · exact ⟨{ stdout := [changedContent report options, "writing to file " ++ path],
                 errlog := ["Error writing to file:"], written := none },
          by simp [markdownReporter, assertPackageRoot, hroot, hlen, hout, hw, changedContent],
          rfl⟩
      · exact ⟨{ stdout := [changedContent report options, "writing to file " ++ path,
                            "Content written to file successfully!"],
                 errlog := [], written := some (path, changedContent report options) },
          by simp [markdownReporter, assertPackageRoot, hroot, hlen, hout, hw, changedContent],
          rfl⟩

/-- C9: when the configured file write fails, the reporter still returns
normally: the full report text has been printed to standard output and the
failure is only logged to the error channel, with no successful write. -/
theorem write_failure_nonfatal (env : Env) (report : List Entry) (options : Options)
    (p path : String) (hroot : env.packageRoot = some p)
    (hch : (getChangedEntriesInReport report).1 ≠ [])
    (hout : options.outputFile = some path) (hw : env.writeSucceeds = false) :
    markdownReporter env report options =
      Except.ok { stdout := [changedContent report options, "writing to file " ++ path],
                  errlog := ["Error writing to file:"], written := none } := by
  have hlen : ¬((getChangedEntriesInReport report).1.length = 0) := by
    simpa [List.length_eq_zero] using hch
  simp [markdownReporter, assertPackageRoot, hroot, hlen, hout, hw, changedContent]

theorem write_failure_nonfatal_witness :
    markdownReporter failEnv [changedEntrySample] outOptions =
      Except.ok { stdout := [changedContent [changedEntrySample] outOptions,
                             "writing to file " ++ "report.md"],
                  errlog := ["Error writing to file:"], written := none } :=
  write_failure_nonfatal failEnv [changedEntrySample] outOptions
    "/repo/packages/monosize" "report.md" rfl (by decide) rfl rfl

/-- C7 (amended): on the path with at least one changed entry, when an output
file is configured and the write succeeds, the text written to the file is
exactly the text printed to standard output; with zero changed entries no
file write occurs (see the counterexample). -/
theorem write_mirrors_stdout (env : Env) (report : List Entry) (options : Options)
    (p path : String) (hroot : env.packageRoot = some p)
    (hch : (getChangedEntriesInReport report).1 ≠ [])
    (hout : options.outputFile = some path) (hw : env.writeSucceeds = true) :
    markdownReporter env report options =
      Except.ok { stdout := [changedContent report options, "writing to file " ++ path,
                             "Content written to file successfully!"],
                  errlog := [],
                  written := some (path, changedContent report options) } := by
  have hlen : ¬((getChangedEntriesInReport report).1.length = 0) := by
    simpa [List.length_eq_zero] using hch
  simp [markdownReporter, assertPackageRoot, hroot, hlen, hout, hw, changedContent]

theorem write_mirrors_stdout_witness :
    markdownReporter sampleEnv [changedEntrySample] outOptions =
      Except.ok { stdout := [changedContent [changedEntrySample] outOptions,
                             "writing to file " ++ "report.md",
                             "Content written to file successfully!"],
                  errlog := [],
                  written := some ("report.md", changedContent [changedEntrySample] outOptions) } :=
  write_mirrors_stdout sampleEnv [changedEntrySample] outOptions
    "/repo/packages/monosize" "report.md" rfl (by decide) rfl rfl

/-- C7 counterexample: with zero changed entries and an output file
configured, stdout output is produced but no file write occurs, refuting the
claim that a write with the same content occurs whenever stdout output is
produced and `outputFile` is set. -/
theorem write_skip_counterexample :
    markdownReporter sampleEnv [unchangedEntrySample] outOptions =
      Except.ok { stdout := ["## 📊 Bundle size report\n\n✅ No changes found"],
                  errlog := [], written := none } ∧
    outOptions.outputFile = some "report.md" :=
  ⟨rfl, rfl⟩

/-- C6: with at least one changed entry, when `showUnchanged` is false the
output lines carry no collapsible section even if unchanged entries exist;
when `showUnchanged` is true and at least one unchanged entry exists the
collapsible section appears with exactly one row per unchanged entry,
showing only current sizes. -/
theorem unchanged_section_control (env : Env) (report : List Entry) (options : Options)
    (p : String) (hroot : env.packageRoot = some p)
    (hch : (getChangedEntriesInReport report).1 ≠ []) :
    ∃ res, markdownReporter env report options = Except.ok res ∧
      res.stdout.head? = some (changedContent report options) ∧
      (options.showUnchanged = false →
        fullLines options.deltaFormat options.showUnchanged
            (getChangedEntriesInReport report).1 (getChangedEntriesInReport report).2
            (footerString options.repository options.commitSHA) =
          headerLines ++ tableHeadLines ++
            (getChangedEntriesInReport report).1.map (changedRow options.deltaFormat) ++ [""] ++
            [footerString options.repository options.commitSHA]) ∧
      (options.showUnchanged = true → (getChangedEntriesInReport report).2 ≠ [] →
        fullLines options.deltaFormat options.showUnchanged
            (getChangedEntriesInReport report).1 (getChangedEntriesInReport report).2
            (footerString options.repository options.commitSHA) =
          headerLines ++ tableHeadLines ++
            (getChangedEntriesInReport report).1.map (changedRow options.deltaFormat) ++ [""] ++
            (["<details>", "<summary>Unchanged fixtures</summary>", ""] ++
              unchangedTableHeadLines ++
              (getChangedEntriesInReport report).2.map unchangedRow ++ ["</details>"]) ++
            [footerString options.repository options.commitSHA] ∧
        ((getChangedEntriesInReport report).2.map unchangedRow).length =
          (getChangedEntriesInReport report).2.length) := by
  obtain ⟨res, h1, h2⟩ := reporter_changed_stdout_head env report options p hroot hch
  refine ⟨res, h1, h2, ?_, ?_⟩
  · intro hsu
    simp [fullLines, unchangedSectionLines, hsu, List.append_assoc]
  · intro hsu hu
    have h0 : 0 < (getChangedEntriesInReport report).2.length := List.length_pos.mpr hu
    constructor
    · simp [fullLines, unchangedSectionLines, hsu, h0, List.append_assoc]
    · exact List.length_map _ _

theorem unchanged_section_control_witness :
    ∃ res, markdownReporter sampleEnv [changedEntrySample, unchangedEntrySample] sampleOptions =
        Except.ok res ∧
      res.stdout.head? =
        some (changedContent [changedEntrySample, unchangedEntrySample] sampleOptions) ∧
      (sampleOptions.showUnchanged = false →
        fullLines sampleOptions.deltaFormat sampleOptions.showUnchanged
            (getChangedEntriesInReport [changedEntrySample, unchangedEntrySample]).1
            (getChangedEntriesInReport [changedEntrySample, unchangedEntrySample]).2
            (footerString sampleOptions.repository sampleOptions.commitSHA) =
          headerLines ++ tableHeadLines ++
            (getChangedEntriesInReport [changedEntrySample, unchangedEntrySample]).1.map
              (changedRow sampleOptions.deltaFormat) ++ [""] ++
            [footerString sampleOptions.repository sampleOptions.commitSHA]) ∧
      (sampleOptions.showUnchanged = true →
        (getChangedEntriesInReport [changedEntrySample, unchangedEntrySample]).2 ≠ [] →
        fullLines sampleOptions.deltaFormat sampleOptions.showUnchanged
            (getChangedEntriesInReport [changedEntrySample, unchangedEntrySample]).1
            (getChangedEntriesInReport [changedEntrySample, unchangedEntrySample]).2
            (footerString sampleOptions.repository sampleOptions.commitSHA) =
          headerLines ++ tableHeadLines ++
            (getChangedEntriesInReport [changedEntrySample, unchangedEntrySample]).1.map
              (changedRow sampleOptions.deltaFormat) ++ [""] ++
            (["<details>", "<summary>Unchanged fixtures</summary>", ""] ++
              unchangedTableHeadLines ++
              (getChangedEntriesInReport [changedEntrySample, unchangedEntrySample]).2.map
                unchangedRow ++ ["</details>"]) ++
            [footerString sampleOptions.repository sampleOptions.commitSHA] ∧
        ((getChangedEntriesInReport [changedEntrySample, unchangedEntrySample]).2.map
            unchangedRow).length =
          (getChangedEntriesInReport [changedEntrySample, unchangedEntrySample]).2.length) :=
  unchanged_section_control sampleEnv [changedEntrySample, unchangedEntrySample] sampleOptions
    "/repo/packages/monosize" rfl (by decide)

/-- C1 (amended): on every invocation with at least one changed entry, the
emitted line list ends with the footer, the footer occurs exactly once among
the lines, after any unchanged section, and it contains the supplied commit
identifier and repository URL; with zero changed entries no footer is
emitted (see the counterexample). -/
theorem footer_once (env : Env) (report : List Entry) (options : Options)
    (p : String) (hroot : env.packageRoot = some p)
    (hch : (getChangedEntriesInReport report).1 ≠ []) :
    ∃ res, markdownReporter env report options = Except.ok res ∧
      res.stdout.head? = some (changedContent report options) ∧
      (fullLines options.deltaFormat options.showUnchanged
          (getChangedEntriesInReport report).1 (getChangedEntriesInReport report).2
          (footerString options.repository options.commitSHA)).getLast? =
        some (footerString options.repository options.commitSHA) ∧
      (fullLines options.deltaFormat options.showUnchanged
          (getChangedEntriesInReport report).1 (getChangedEntriesInReport report).2
          (footerString options.repository options.commitSHA)).count
          (footerString options.repository options.commitSHA) = 1 ∧
      (∃ a b, footerString options.repository options.commitSHA =
        a ++ (options.commitSHA ++ b)) ∧
      (∃ a b, footerString options.repository options.commitSHA =
        a ++ (options.repository ++ b)) := by
  obtain ⟨res, h1, h2⟩ := reporter_changed_stdout_head env report options p hroot hch
  refine ⟨res, h1, h2, footer_last _ _ _ _ _, footer_count_one _ _ _ _ _ _, ?_, ?_⟩
  · exact ⟨"<sub>🤖 This report was generated against <a href=\x27" ++
        options.repository ++ "/commit/",
      "\x27>" ++ options.commitSHA ++ "</a></sub>",
      by simp [footerString, String.append_assoc]⟩
  · exact ⟨"<sub>🤖 This report was generated against <a href=\x27",
      "/commit/" ++ options.commitSHA ++ "\x27>" ++ options.commitSHA ++ "</a></sub>",
      by simp [footerString, String.append_assoc]⟩

theorem footer_once_witness :
    ∃ res, markdownReporter sampleEnv [changedEntrySample] sampleOptions = Except.ok res ∧
      res.stdout.head? = some (changedContent [changedEntrySample] sampleOptions) ∧
      (fullLines sampleOptions.deltaFormat sampleOptions.showUnchanged
          (getChangedEntriesInReport [changedEntrySample]).1
          (getChangedEntriesInReport [changedEntrySample]).2
          (footerString sampleOptions.repository sampleOptions.commitSHA)).getLast? =
        some (footerString sampleOptions.repository sampleOptions.commitSHA) ∧
      (fullLines sampleOptions.deltaFormat sampleOptions.showUnchanged
          (getChangedEntriesInReport [changedEntrySample]).1
          (getChangedEntriesInReport [changedEntrySample]).2
          (footerString sampleOptions.repository sampleOptions.commitSHA)).count
          (footerString sampleOptions.repository sampleOptions.commitSHA) = 1 ∧
      (∃ a b, footerString sampleOptions.repository sampleOptions.commitSHA =
        a ++ (sampleOptions.commitSHA ++ b)) ∧
      (∃ a b, footerString sampleOptions.repository sampleOptions.commitSHA =
        a ++ (sampleOptions.repository ++ b)) :=
  footer_once sampleEnv [changedEntrySample] sampleOptions
    "/repo/packages/monosize" rfl (by decide)

/-- C1 counterexample: with zero changed entries the reporter returns early
and the emitted text contains no occurrence of the supplied commit
identifier at all, so no footer line is appended in that path. -/
theorem footer_counterexample :
    markdownReporter sampleEnv [] sampleOptions =
      Except.ok { stdout := ["## 📊 Bundle size report\n\n✅ No changes found"],
                  errlog := [], written := none } ∧
    strOccursIn sampleOptions.commitSHA "## 📊 Bundle size report\n\n✅ No changes found" =
      false :=
  ⟨rfl, by decide⟩
